import Mathlib

/-!
Verification of the Room Inventory Availability & Booking Lifecycle Engine
(backend/app/routes/bookings.py, backend/app/models/booking.py,
backend/app/models/models.py).

Dates are modelled as integers (day numbers): Python `date` subtraction
`.days` becomes integer subtraction.  Monetary amounts (SQL `Numeric(10,2)`
manipulated through Python `Decimal`) are modelled as rationals, which is
exact for every decimal value.  The relational store is modelled as lists of
records in storage order; a SQLAlchemy `filter(...).count()` becomes
`(List.filter ...).length` and `filter_by(...).first()` (no ORDER BY in the
source) becomes `(List.filter ...).head?`.
-/

namespace HotelBooking

/-- `RoomStatus` enum from models.py. -/
inductive RoomStatus where
  | occupied
  | vacantDirty
  | cleanReady
  | outOfOrder
  | inspected
deriving DecidableEq, Repr

/-- `BookingStatus` enum from models.py. -/
inductive BookingStatus where
  | pending
  | confirmed
  | checkedIn
  | checkedOut
  | cancelled
deriving DecidableEq, Repr

/-- `Room` entity (models.py).  `room_number` is stored as a string in the
schema; it is modelled as a number here — nothing in the verified routes
orders by it, which is precisely what claim C7 is about.  Fields not read by
any booking route (floor, view type, …) are omitted. -/
structure Room where
  id : Nat
  hotel_id : Nat
  room_type_id : Nat
  room_number : Nat
  status : RoomStatus
  is_deleted : Bool
deriving DecidableEq, Repr

/-- `RoomType` entity (models.py), fields used by the booking routes. -/
structure RoomType where
  id : Nat
  hotel_id : Nat
  max_occupancy : Nat
  base_price : Rat
  is_deleted : Bool
deriving DecidableEq, Repr

/-- `Booking` entity (models/booking.py), fields used by the booking routes.
`booking_number` (randomly generated) and the guest linkage are omitted: no
verified claim reads them.  `check_in_date`/`check_out_date` are NOT NULL in
the schema, so they are plain integers here. -/
structure Booking where
  id : Nat
  hotel_id : Nat
  room_type_id : Nat
  room_id : Option Nat
  check_in_date : Int
  check_out_date : Int
  num_guests : Nat
  total_amount : Rat
  status : BookingStatus
  cancellation_reason : Option String
  cancelled_at : Option Int
  refund_amount : Option Rat
  actual_check_in : Option Int
  actual_check_out : Option Int
  is_deleted : Bool
deriving DecidableEq, Repr

/-- `HousekeepingTask` entity (models/booking.py), fields set at check-out. -/
structure HousekeepingTask where
  room_id : Nat
  task_type : String
  priority : String
  status : String
deriving DecidableEq, Repr

/-- The three-disjunct overlap filter used verbatim in
`search_availability` (routes/bookings.py lines 65-78), applied to a stored
booking interval `[bci, bco)` and the query interval `[ci, co)`. -/
def overlap3 (bci bco ci co : Int) : Bool :=
  (decide (bci ≤ ci) && decide (bco > ci)) ||
  (decide (bci < co) && decide (bco ≥ co)) ||
  (decide (bci ≥ ci) && decide (bco ≤ co))

/-- Modelled from the spec: the single unified half-open interval overlap
predicate `a1 < b2 AND b1 < a2` that §4.1 of the spec says the three-way OR
reduces to.  Kept separate from `overlap3` so the refinement can be stated. -/
def overlapStd (bci bco ci co : Int) : Bool :=
  decide (bci < co) && decide (ci < bco)

/-- Helper: Bool equality from propositional equivalence. -/
theorem bool_eq_of_iff {a b : Bool} (h : a = true ↔ b = true) : a = b := by
  cases a <;> cases b <;> simp_all

/-- `Booking.calculate_cancellation_charge` (models/booking.py lines 72-86).
`days_until_checkin = (check_in_date - now.date()).days`; `Decimal('0.5')`
is the exact rational 1/2.  The `None` guard on `check_in_date` is the
source's first branch. -/
def calculate_cancellation_charge (check_in_date : Option Int) (today : Int)
    (total_amount : Rat) : Rat :=
  match check_in_date with
  | none => 0
  | some d =>
    if 2 ≤ d - today then 0
    else if 0 ≤ d - today then total_amount * (1 / 2)
    else total_amount

/-- Eligibility filter of the room pool counted by `search_availability`
(routes/bookings.py lines 52-58): same hotel and type, not soft-deleted,
status not OUT_OF_ORDER. -/
def roomEligible (hid rtid : Nat) (r : Room) : Bool :=
  r.hotel_id == hid && r.room_type_id == rtid && !r.is_deleted &&
    !(r.status == RoomStatus.outOfOrder)

/-- `total_rooms` count of `search_availability`. -/
def total_rooms (rooms : List Room) (hid rtid : Nat) : Nat :=
  (rooms.filter (roomEligible hid rtid)).length

/-- Active-status test of the booked-rooms query (lines 64):
`status IN (CONFIRMED, CHECKED_IN)`. -/
def bookingActive (s : BookingStatus) : Bool :=
  s == BookingStatus.confirmed || s == BookingStatus.checkedIn

/-- Filter of the booked-rooms query of `search_availability`
(lines 61-79): same type and hotel, active status, three-disjunct overlap
with the query range.  The query applies no soft-delete filter to bookings. -/
def bookingCounted (hid rtid : Nat) (ci co : Int) (b : Booking) : Bool :=
  b.room_type_id == rtid && b.hotel_id == hid && bookingActive b.status &&
    overlap3 b.check_in_date b.check_out_date ci co

/-- `booked_rooms` count of `search_availability`. -/
def booked_rooms (bookings : List Booking) (hid rtid : Nat) (ci co : Int) : Nat :=
  (bookings.filter (bookingCounted hid rtid ci co)).length

/-- Modelled from the spec: the count of active bookings of the room type
whose date range genuinely overlaps `[ci, co)` (the single-predicate form of
§4.1), used to state C1 in the claim's own words. -/
def booked_rooms_overlapping (bookings : List Booking) (hid rtid : Nat)
    (ci co : Int) : Nat :=
  (bookings.filter (fun b => b.room_type_id == rtid && b.hotel_id == hid &&
    bookingActive b.status && overlapStd b.check_in_date b.check_out_date ci co)).length

/-- One entry of the availability search result (lines 88-94). -/
structure AvailEntry where
  room_type_id : Nat
  available_rooms : Int
  num_nights : Int
  price_per_night : Rat
  total_price : Rat
deriving DecidableEq, Repr

/-- The store the booking routes query: lists of records in storage order. -/
structure Store where
  room_types : List RoomType
  rooms : List Room
  bookings : List Booking
deriving Repr

/-- `search_availability` (routes/bookings.py lines 15-108) after JSON field
validation and date parsing.  `today` models `date.today()`.  Room types of
the hotel that are not soft-deleted and satisfy `max_occupancy >= num_guests`
are scanned; each with `available = total_rooms - booked_rooms > 0`
contributes an entry. -/
def search_availability (st : Store) (hid : Nat) (ci co : Int)
    (num_guests : Nat) (today : Int) : Except String (List AvailEntry) :=
  if co ≤ ci then Except.error "Check-out must be after check-in"
  else if ci < today then Except.error "Check-in date cannot be in the past"
  else Except.ok <|
    (st.room_types.filter (fun rt => rt.hotel_id == hid && !rt.is_deleted &&
        num_guests ≤ rt.max_occupancy)).filterMap (fun rt =>
      let available : Int := (total_rooms st.rooms hid rt.id : Int) -
        (booked_rooms st.bookings hid rt.id ci co : Int)
      if 0 < available then
        some { room_type_id := rt.id, available_rooms := available,
               num_nights := co - ci, price_per_night := rt.base_price,
               total_price := rt.base_price * (co - ci : Int) }
      else none)

/-- Parsed input of `create_booking` (routes/bookings.py lines 111-172)
after required-field validation, date parsing and guest resolution. -/
structure CreateInput where
  hotel_id : Nat
  guest_id : Nat
  room_type_id : Nat
  check_in_date : Int
  check_out_date : Int
  num_guests : Nat
  total_amount : Rat
deriving DecidableEq, Repr

/-- `create_booking` (lines 149-163): the booking is constructed and
committed with status PENDING.  The route performs no date-ordering check,
no check-in-not-in-the-past check and no occupancy check. -/
def create_booking (inp : CreateInput) : Booking :=
  { id := 0
    hotel_id := inp.hotel_id
    room_type_id := inp.room_type_id
    room_id := none
    check_in_date := inp.check_in_date
    check_out_date := inp.check_out_date
    num_guests := inp.num_guests
    total_amount := inp.total_amount
    status := BookingStatus.pending
    cancellation_reason := none
    cancelled_at := none
    refund_amount := none
    actual_check_in := none
    actual_check_out := none
    is_deleted := false }

/-- `get_booking` (lines 175-183): the only route that treats a soft-deleted
booking as not found. -/
def get_booking (booking : Option Booking) : Except String Booking :=
  match booking with
  | none => Except.error "Booking not found"
  | some b =>
    if b.is_deleted then Except.error "Booking not found"
    else Except.ok b

/-- `confirm_booking` (lines 186-207): no guard on the current status — any
existing booking is moved to CONFIRMED. -/
def confirm_booking (booking : Option Booking) : Except String Booking :=
  match booking with
  | none => Except.error "Booking not found"
  | some b => Except.ok { b with status := BookingStatus.confirmed }

/-- `cancel_booking` (lines 210-245): the only guard is
`status == CANCELLED`; any other status is cancelled, recording timestamp,
reason and refund computed from the cancellation policy. -/
def cancel_booking (booking : Option Booking) (reason : Option String)
    (now today : Int) : Except String (Rat × Rat × Booking) :=
  match booking with
  | none => Except.error "Booking not found"
  | some b =>
    if b.status = BookingStatus.cancelled then
      Except.error "Booking already cancelled"
    else
      let charge := calculate_cancellation_charge (some b.check_in_date) today b.total_amount
      let refund := b.total_amount - charge
      Except.ok (charge, refund,
        { b with status := BookingStatus.cancelled
                 cancelled_at := some now
                 cancellation_reason := reason
                 refund_amount := some refund })

/-- Auto-assignment candidate filter of `check_in` (lines 267-272): rooms of
the booking's hotel and type, in CLEAN_READY status, not soft-deleted.  The
query has no ORDER BY, so `.first()` takes the head of the list in storage
order. -/
def clean_ready_candidates (b : Booking) (rooms : List Room) : List Room :=
  rooms.filter (fun r => r.hotel_id == b.hotel_id &&
    r.room_type_id == b.room_type_id && r.status == RoomStatus.cleanReady &&
    !r.is_deleted)

/-- Set the status of the room with the given id (`room.status = ...` after
`Room.query.get`). -/
def updateRoomStatus (rooms : List Room) (rid : Nat) (s : RoomStatus) : List Room :=
  rooms.map (fun r => if r.id == rid then { r with status := s } else r)

/-- The room-resolution step of `check_in` (lines 262-279): an
already-assigned room is kept; else an explicitly requested id is taken
without validation; else the head of the candidate list, failing when no
candidate exists. -/
def resolve_room (b : Booking) (requested : Option Nat)
    (rooms : List Room) : Except String Nat :=
  match b.room_id with
  | some rid => Except.ok rid
  | none =>
    match requested with
    | some rid => Except.ok rid
    | none =>
      match (clean_ready_candidates b rooms).head? with
      | some room => Except.ok room.id
      | none => Except.error "No clean rooms available"

/-- `check_in` (lines 248-300).  Guard: status must be CONFIRMED.  The
resolved room record is then fetched and set to OCCUPIED; a dangling id
raises inside the try-block, which rolls back (modelled as an error with no
mutation). -/
def check_in (booking : Option Booking) (requested : Option Nat)
    (rooms : List Room) (now : Int) : Except String (Booking × List Room) :=
  match booking with
  | none => Except.error "Booking not found"
  | some b =>
    if b.status ≠ BookingStatus.confirmed then
      Except.error "Booking must be confirmed before check-in"
    else
      match resolve_room b requested rooms with
      | Except.error e => Except.error e
      | Except.ok rid =>
        if rooms.any (fun r => r.id == rid) then
          Except.ok ({ b with status := BookingStatus.checkedIn
                              actual_check_in := some now
                              room_id := some rid },
                     updateRoomStatus rooms rid RoomStatus.occupied)
        else Except.error "Internal error"

/-- `check_out` (lines 303-345).  Guard: status must be CHECKED_IN.  The
booking becomes CHECKED_OUT with `actual_check_out = now`; if a room is
assigned (`if booking.room:`), it becomes VACANT_DIRTY and one cleaning task
(normal priority, pending) is appended. -/
def check_out (booking : Option Booking) (rooms : List Room)
    (tasks : List HousekeepingTask) (now : Int) :
    Except String (Booking × List Room × List HousekeepingTask) :=
  match booking with
  | none => Except.error "Booking not found"
  | some b =>
    if b.status ≠ BookingStatus.checkedIn then
      Except.error "Guest is not checked in"
    else
      let b2 := { b with status := BookingStatus.checkedOut
                         actual_check_out := some now }
      match b.room_id with
      | none => Except.ok (b2, rooms, tasks)
      | some rid =>
        Except.ok (b2, updateRoomStatus rooms rid RoomStatus.vacantDirty,
          tasks ++ [{ room_id := rid, task_type := "cleaning",
                      priority := "normal", status := "pending" }])

end HotelBooking

namespace HotelBooking

/-- C2: the three-disjunct overlap test of `search_availability` is, for
well-formed half-open intervals (check-in strictly before check-out on both
sides), equivalent to the single predicate `bci < co AND ci < bco`; touching
intervals (one interval's end equal to the other's start) are classified as
non-overlapping by both forms. -/
theorem overlap_three_disjunct_equiv (bci bco ci co : Int)
    (hb : bci < bco) (hq : ci < co) :
    overlap3 bci bco ci co = overlapStd bci bco ci co ∧
    (bco = ci → overlap3 bci bco ci co = false ∧ overlapStd bci bco ci co = false) ∧
    (co = bci → overlap3 bci bco ci co = false ∧ overlapStd bci bco ci co = false) := by
  refine ⟨bool_eq_of_iff ?_, fun h => ⟨?_, ?_⟩, fun h => ⟨?_, ?_⟩⟩ <;>
    simp only [overlap3, overlapStd, Bool.or_eq_true, Bool.and_eq_true,
      decide_eq_true_eq, Bool.or_eq_false_iff, Bool.and_eq_false_iff,
      decide_eq_false_iff_not, not_le, not_lt] <;> omega

/-- Witness for C2 at the spec's own example: stay `[0, 5)` against query
`[5, 8)` touches without overlapping. -/
theorem overlap_three_disjunct_equiv_witness :
    overlap3 0 5 5 8 = overlapStd 0 5 5 8 ∧ overlap3 0 5 5 8 = false :=
  ⟨(overlap_three_disjunct_equiv 0 5 5 8 (by decide) (by decide)).1,
   ((overlap_three_disjunct_equiv 0 5 5 8 (by decide) (by decide)).2.1 rfl).1⟩

/-- Unfolding equation for the charge on a present check-in date. -/
theorem calculate_cancellation_charge_some (d today : Int) (total : Rat) :
    calculate_cancellation_charge (some d) today total =
      if 2 ≤ d - today then 0
      else if 0 ≤ d - today then total * (1 / 2)
      else total := rfl

/-- C3: the cancellation policy charges 0 when check-in is 2 or more days
away, 50% within the 0..1-day window, and 100% after check-in has passed;
refund + charge equals the total exactly, and a non-negative total never
yields a negative refund. -/
theorem cancellation_policy_correct (d today : Int) (total : Rat) :
    (2 ≤ d - today → calculate_cancellation_charge (some d) today total = 0) ∧
    (0 ≤ d - today → d - today < 2 →
      calculate_cancellation_charge (some d) today total = total * (1 / 2)) ∧
    (d - today < 0 → calculate_cancellation_charge (some d) today total = total) ∧
    (total - calculate_cancellation_charge (some d) today total) +
      calculate_cancellation_charge (some d) today total = total ∧
    (0 ≤ total → 0 ≤ total - calculate_cancellation_charge (some d) today total) := by
  rw [calculate_cancellation_charge_some]
  refine ⟨fun h2 => ?_, fun h0 h2 => ?_, fun hn => ?_, by ring, fun ht => ?_⟩
  · rw [if_pos h2]
  · rw [if_neg (by omega), if_pos h0]
  · rw [if_neg (by omega), if_neg (by omega)]
  · split
    · simpa using ht
    · split
      · nlinarith
      · simp

/-- Witness for C3 at the boundary inputs of the claim: check-in day 2, 1, 0
and −1 relative to today 0, total 100. -/
theorem cancellation_policy_correct_witness :
    calculate_cancellation_charge (some 2) 0 100 = 0 ∧
    calculate_cancellation_charge (some 1) 0 100 = 100 * (1 / 2) ∧
    calculate_cancellation_charge (some 0) 0 100 = 100 * (1 / 2) ∧
    calculate_cancellation_charge (some (-1)) 0 100 = 100 ∧
    0 ≤ (100 : Rat) - calculate_cancellation_charge (some (-1)) 0 100 :=
  ⟨(cancellation_policy_correct 2 0 100).1 (by decide),
   (cancellation_policy_correct 1 0 100).2.1 (by decide) (by decide),
   (cancellation_policy_correct 0 0 100).2.1 (by decide) (by decide),
   (cancellation_policy_correct (-1) 0 100).2.2.1 (by decide),
   (cancellation_policy_correct (-1) 0 100).2.2.2.2 (by norm_num)⟩

/-- A cancelled booking used to exercise `confirm_booking`. -/
def exCancelledBooking : Booking :=
  { id := 7, hotel_id := 1, room_type_id := 1, room_id := none,
    check_in_date := 10, check_out_date := 12, num_guests := 2,
    total_amount := 100, status := BookingStatus.cancelled,
    cancellation_reason := some "changed plans", cancelled_at := some 3,
    refund_amount := some 100, actual_check_in := none,
    actual_check_out := none, is_deleted := false }

/-- C4 counterexample: `confirm_booking` is claimed to fail with an
IllegalTransition error from any status other than PENDING, but on this
concrete CANCELLED booking it succeeds and moves the booking to CONFIRMED. -/
theorem confirm_any_status_counterexample :
    exCancelledBooking.status ≠ BookingStatus.pending ∧
    confirm_booking (some exCancelledBooking) =
      Except.ok { exCancelledBooking with status := BookingStatus.confirmed } := by
  constructor
  · decide
  · rfl

/-- C4 amended: `confirm_booking` has no status guard at all: every existing
booking — whatever its current status, including an already-CONFIRMED or
CANCELLED one — is moved to CONFIRMED with no other field changed; only a
missing booking fails (NotFound). -/
theorem confirm_booking_amended :
    (∀ b : Booking, confirm_booking (some b) =
      Except.ok { b with status := BookingStatus.confirmed }) ∧
    confirm_booking none = Except.error "Booking not found" :=
  ⟨fun _ => rfl, rfl⟩

/-- A checked-in booking used to exercise `cancel_booking`. -/
def exCheckedInBooking : Booking :=
  { id := 8, hotel_id := 1, room_type_id := 1, room_id := some 4,
    check_in_date := 10, check_out_date := 12, num_guests := 2,
    total_amount := 100, status := BookingStatus.checkedIn,
    cancellation_reason := none, cancelled_at := none,
    refund_amount := none, actual_check_in := some 10,
    actual_check_out := none, is_deleted := false }

/-- C5 counterexample: cancellation is claimed to fail from CHECKED_IN, but
on this concrete CHECKED_IN booking `cancel_booking` succeeds (days until
check-in = 10, so charge 0, full refund 100). -/
theorem cancel_checked_in_counterexample :
    exCheckedInBooking.status = BookingStatus.checkedIn ∧
    cancel_booking (some exCheckedInBooking) none 11 0 =
      Except.ok (0, 100,
        { exCheckedInBooking with status := BookingStatus.cancelled
                                  cancelled_at := some 11
                                  cancellation_reason := none
                                  refund_amount := some 100 }) := by
  refine ⟨rfl, ?_⟩
  simp only [cancel_booking, exCheckedInBooking, calculate_cancellation_charge_some]
  norm_num
  exact fun h => nomatch h

/-- C5 amended: `cancel_booking` succeeds if and only if the booking exists
and its status is not already CANCELLED — CHECKED_IN and CHECKED_OUT
bookings are cancelled too, not only PENDING and CONFIRMED ones; on success
it sets status CANCELLED, records the timestamp, the reason and the refund
`total − charge` from the cancellation policy; an already-CANCELLED booking
is rejected with no mutation. -/
theorem cancel_booking_amended (b : Booking) (reason : Option String)
    (now today : Int) :
    (b.status = BookingStatus.cancelled →
      cancel_booking (some b) reason now today =
        Except.error "Booking already cancelled") ∧
    (b.status ≠ BookingStatus.cancelled →
      cancel_booking (some b) reason now today =
        Except.ok (calculate_cancellation_charge (some b.check_in_date) today b.total_amount,
          b.total_amount -
            calculate_cancellation_charge (some b.check_in_date) today b.total_amount,
          { b with status := BookingStatus.cancelled
                   cancelled_at := some now
                   cancellation_reason := reason
                   refund_amount := some (b.total_amount -
                     calculate_cancellation_charge (some b.check_in_date) today
                       b.total_amount) })) ∧
    cancel_booking none reason now today = Except.error "Booking not found" := by
  refine ⟨fun h => ?_, fun h => ?_, rfl⟩
  · simp [cancel_booking, h]
  · simp [cancel_booking, h]

/-- A freshly created PENDING booking used as witness input. -/
def exPendingBooking : Booking :=
  create_booking
    { hotel_id := 1, guest_id := 1, room_type_id := 1, check_in_date := 1,
      check_out_date := 3, num_guests := 2, total_amount := 80 }

/-- Witness for C5's amended theorem on a concrete PENDING booking. -/
theorem cancel_booking_amended_witness :
    cancel_booking (some exPendingBooking) none 0 0 =
      Except.ok (calculate_cancellation_charge (some exPendingBooking.check_in_date) 0
          exPendingBooking.total_amount,
        exPendingBooking.total_amount -
          calculate_cancellation_charge (some exPendingBooking.check_in_date) 0
            exPendingBooking.total_amount,
        { exPendingBooking with status := BookingStatus.cancelled
                                cancelled_at := some 0
                                cancellation_reason := none
                                refund_amount := some (exPendingBooking.total_amount -
                                  calculate_cancellation_charge
                                    (some exPendingBooking.check_in_date) 0
                                    exPendingBooking.total_amount) }) :=
  (cancel_booking_amended exPendingBooking none 0 0).2.1 (by decide)

/-- A creation request with an empty date range (check-in equals
check-out). -/
def exBadCreateInput : CreateInput :=
  { hotel_id := 1, guest_id := 1, room_type_id := 1, check_in_date := 10,
    check_out_date := 10, num_guests := 2, total_amount := 100 }

/-- C6 counterexample: creation is claimed to be rejected when
`checkOut > checkIn` fails, but the route runs no such check: this request
with `check_in = check_out = 10` produces a persisted PENDING booking. -/
theorem create_no_validation_counterexample :
    exBadCreateInput.check_out_date = exBadCreateInput.check_in_date ∧
    (create_booking exBadCreateInput).status = BookingStatus.pending ∧
    (create_booking exBadCreateInput).check_in_date = 10 ∧
    (create_booking exBadCreateInput).check_out_date = 10 := by
  refine ⟨rfl, rfl, rfl, rfl⟩

/-- C6 amended: `create_booking` applies none of the claimed guards.  For
every parsed request — even one with `checkOut ≤ checkIn`, a past check-in
date, or a guest count above the room type's maximum occupancy — it persists
a booking in status PENDING carrying the request's dates and guest count,
with no room assigned; the date guards exist only in the availability
search. -/
theorem create_booking_amended (inp : CreateInput) :
    (create_booking inp).status = BookingStatus.pending ∧
    (create_booking inp).check_in_date = inp.check_in_date ∧
    (create_booking inp).check_out_date = inp.check_out_date ∧
    (create_booking inp).num_guests = inp.num_guests ∧
    (create_booking inp).room_id = none ∧
    (create_booking inp).total_amount = inp.total_amount :=
  ⟨rfl, rfl, rfl, rfl, rfl, rfl⟩

/-- A CONFIRMED booking with no assigned room, awaiting check-in. -/
def exConfirmedBooking : Booking :=
  { id := 9, hotel_id := 1, room_type_id := 1, room_id := none,
    check_in_date := 10, check_out_date := 12, num_guests := 2,
    total_amount := 100, status := BookingStatus.confirmed,
    cancellation_reason := none, cancelled_at := none,
    refund_amount := none, actual_check_in := none,
    actual_check_out := none, is_deleted := false }

/-- A CLEAN_READY room with the larger room number, stored first. -/
def exRoomHigh : Room :=
  { id := 1, hotel_id := 1, room_type_id := 1, room_number := 202,
    status := RoomStatus.cleanReady, is_deleted := false }

/-- A CLEAN_READY room with the smaller room number, stored second. -/
def exRoomLow : Room :=
  { id := 2, hotel_id := 1, room_type_id := 1, room_number := 101,
    status := RoomStatus.cleanReady, is_deleted := false }

/-- C7 counterexample: auto-assignment is claimed to pick the room with the
smallest room number, but the query has no ordering: with room 202 stored
before room 101 (both CLEAN_READY, same hotel and type, not deleted),
check-in assigns room id 1 — the room numbered 202 — although room 101 is
also an eligible candidate. -/
theorem check_in_order_counterexample :
    check_in (some exConfirmedBooking) none [exRoomHigh, exRoomLow] 10 =
      Except.ok ({ exConfirmedBooking with status := BookingStatus.checkedIn
                                           actual_check_in := some 10
                                           room_id := some exRoomHigh.id },
                 [{ exRoomHigh with status := RoomStatus.occupied }, exRoomLow]) ∧
    exRoomHigh.room_number = 202 ∧ exRoomLow.room_number = 101 ∧
    exRoomLow.hotel_id = exConfirmedBooking.hotel_id ∧
    exRoomLow.room_type_id = exConfirmedBooking.room_type_id ∧
    exRoomLow.status = RoomStatus.cleanReady ∧
    exRoomLow.is_deleted = false := by
  refine ⟨?_, rfl, rfl, rfl, rfl, rfl, rfl⟩
  rfl

/-- C7 amended: for a CONFIRMED booking with no assigned room and no
requested room id, check-in auto-selects the FIRST room in storage order —
not the smallest room number — among rooms of the booking's type and hotel
in status CLEAN_READY and not soft-deleted; if no such room exists it fails
with "No clean rooms available" and performs no mutation; on success the
booking becomes CHECKED_IN with that room assigned and `actual_check_in` set
to now, and the assigned room's status becomes OCCUPIED. -/
theorem check_in_auto_assign_amended (b : Booking) (rooms : List Room)
    (now : Int) (hst : b.status = BookingStatus.confirmed)
    (hnr : b.room_id = none) :
    (clean_ready_candidates b rooms = [] →
      check_in (some b) none rooms now = Except.error "No clean rooms available") ∧
    (∀ r : Room, (clean_ready_candidates b rooms).head? = some r →
      check_in (some b) none rooms now =
        Except.ok ({ b with status := BookingStatus.checkedIn
                            actual_check_in := some now
                            room_id := some r.id },
                   updateRoomStatus rooms r.id RoomStatus.occupied)) := by
  constructor
  · intro hempty
    simp [check_in, resolve_room, hst, hnr, hempty]
  · intro r hr
    have hmem : r ∈ rooms := by
      have hc : r ∈ clean_ready_candidates b rooms := List.mem_of_mem_head? hr
      exact List.mem_of_mem_filter hc
    have hany : rooms.any (fun x => x.id == r.id) = true :=
      List.any_eq_true.mpr ⟨r, hmem, by simp⟩
    simp [check_in, resolve_room, hst, hnr, hr, hany]

/-- Witness for C7's amended theorem: with the two-room store above, the
head candidate (room id 1) is assigned. -/
theorem check_in_auto_assign_amended_witness :
    check_in (some exConfirmedBooking) none [exRoomHigh, exRoomLow] 10 =
      Except.ok ({ exConfirmedBooking with status := BookingStatus.checkedIn
                                           actual_check_in := some 10
                                           room_id := some exRoomHigh.id },
                 updateRoomStatus [exRoomHigh, exRoomLow] exRoomHigh.id
                   RoomStatus.occupied) :=
  (check_in_auto_assign_amended exConfirmedBooking [exRoomHigh, exRoomLow] 10
    rfl rfl).2 exRoomHigh rfl

/-- C8: checking out a CHECKED_IN booking with an assigned room sets the
booking to CHECKED_OUT with `actual_check_out = now`, sets the room's status
to VACANT_DIRTY, and appends exactly one housekeeping task (cleaning, normal
priority, pending) for that room; any booking in a different status is
rejected with no mutation. -/
theorem check_out_correct (b : Booking) (rid : Nat) (rooms : List Room)
    (tasks : List HousekeepingTask) (now : Int)
    (hst : b.status = BookingStatus.checkedIn) (hr : b.room_id = some rid) :
    check_out (some b) rooms tasks now =
      Except.ok ({ b with status := BookingStatus.checkedOut
                          actual_check_out := some now },
        updateRoomStatus rooms rid RoomStatus.vacantDirty,
        tasks ++ [{ room_id := rid, task_type := "cleaning",
                    priority := "normal", status := "pending" }]) ∧
    (∀ b2 : Booking, b2.status ≠ BookingStatus.checkedIn →
      check_out (some b2) rooms tasks now = Except.error "Guest is not checked in") := by
  constructor
  · simp [check_out, hst, hr]
  · intro b2 h2
    simp [check_out, h2]

/-- Witness for C8 on a concrete checked-in booking occupying room 4. -/
theorem check_out_correct_witness :
    check_out (some exCheckedInBooking)
        [{ id := 4, hotel_id := 1, room_type_id := 1, room_number := 104,
           status := RoomStatus.occupied, is_deleted := false }] [] 12 =
      Except.ok ({ exCheckedInBooking with status := BookingStatus.checkedOut
                                           actual_check_out := some 12 },
        updateRoomStatus
          [{ id := 4, hotel_id := 1, room_type_id := 1, room_number := 104,
             status := RoomStatus.occupied, is_deleted := false }] 4
          RoomStatus.vacantDirty,
        [] ++ [{ room_id := 4, task_type := "cleaning",
                 priority := "normal", status := "pending" }]) :=
  (check_out_correct exCheckedInBooking 4
    [{ id := 4, hotel_id := 1, room_type_id := 1, room_number := 104,
       status := RoomStatus.occupied, is_deleted := false }] [] 12 rfl rfl).1

/-- C10: only the read-only `get_booking` treats a soft-deleted booking as
not found; `confirm_booking`, `cancel_booking`, `check_in` and `check_out`
never read the `is_deleted` flag, so on a deleted booking each behaves
exactly as on the identical non-deleted booking — same success or failure,
same resulting fields — the deletion flag merely carried through. -/
theorem soft_delete_ignored_by_transitions (b : Booking)
    (reason : Option String) (req : Option Nat) (rooms : List Room)
    (tasks : List HousekeepingTask) (now today : Int) :
    get_booking (some { b with is_deleted := true }) =
      Except.error "Booking not found" ∧
    confirm_booking (some { b with is_deleted := true }) =
      Except.map (fun x => { x with is_deleted := true })
        (confirm_booking (some { b with is_deleted := false })) ∧
    cancel_booking (some { b with is_deleted := true }) reason now today =
      Except.map (fun p => (p.1, p.2.1, { p.2.2 with is_deleted := true }))
        (cancel_booking (some { b with is_deleted := false }) reason now today) ∧
    check_in (some { b with is_deleted := true }) req rooms now =
      Except.map (fun p => ({ p.1 with is_deleted := true }, p.2))
        (check_in (some { b with is_deleted := false }) req rooms now) ∧
    check_out (some { b with is_deleted := true }) rooms tasks now =
      Except.map (fun p => ({ p.1 with is_deleted := true }, p.2.1, p.2.2))
        (check_out (some { b with is_deleted := false }) rooms tasks now) := by
  refine ⟨rfl, rfl, ?_, ?_, ?_⟩
  · simp only [cancel_booking]
    split <;> rfl
  · have hres : resolve_room { b with is_deleted := true } req rooms
        = resolve_room { b with is_deleted := false } req rooms := rfl
    simp only [check_in, hres]
    split
    · rfl
    · cases hr : resolve_room { b with is_deleted := false } req rooms with
      | error e => rfl
      | ok rid =>
        by_cases hany : (rooms.any fun r => r.id == rid) = true <;>
          simp only [hany, if_pos, if_neg, not_false_eq_true] <;> rfl
  · simp only [check_out]
    split
    · rfl
    · split <;> rfl

/-- The mutable state a single booking's lifecycle acts on: the booking row,
the room table and the housekeeping-task table. -/
structure World where
  booking : Booking
  rooms : List Room
  tasks : List HousekeepingTask
deriving Repr

/-- A lifecycle request against an existing booking, with its caller-supplied
parameters. -/
inductive Op where
  | confirmOp : Op
  | cancelOp (reason : Option String) (now today : Int) : Op
  | checkInOp (requested : Option Nat) (now : Int) : Op
  | checkOutOp (now : Int) : Op

/-- Apply one request: a failing route rolls back (state unchanged), a
succeeding one commits its writes. -/
def applyOp (w : World) (op : Op) : World :=
  match op with
  | Op.confirmOp =>
    match confirm_booking (some w.booking) with
    | Except.ok b2 => { w with booking := b2 }
    | Except.error _ => w
  | Op.cancelOp reason now today =>
    match cancel_booking (some w.booking) reason now today with
    | Except.ok (_, _, b2) => { w with booking := b2 }
    | Except.error _ => w
  | Op.checkInOp requested now =>
    match check_in (some w.booking) requested w.rooms now with
    | Except.ok (b2, rooms2) => { booking := b2, rooms := rooms2, tasks := w.tasks }
    | Except.error _ => w
  | Op.checkOutOp now =>
    match check_out (some w.booking) w.rooms w.tasks now with
    | Except.ok (b2, rooms2, tasks2) => { booking := b2, rooms := rooms2, tasks := tasks2 }
    | Except.error _ => w

/-- Run a sequence of lifecycle requests. -/
def runOps (w : World) (ops : List Op) : World :=
  ops.foldl applyOp w

/-- Every booking reachable from a creation request through lifecycle
requests: the world obtained by creating the booking into a store with the
given room table and then applying the requests. -/
def reachableWorld (inp : CreateInput) (rooms0 : List Room) (ops : List Op) : World :=
  runOps { booking := create_booking inp, rooms := rooms0, tasks := [] } ops

/-- The part of the claimed record invariant that the code does maintain. -/
def bookingInv (inp : CreateInput) (b : Booking) : Prop :=
  b.check_in_date = inp.check_in_date ∧
  b.check_out_date = inp.check_out_date ∧
  ((b.status = BookingStatus.checkedIn ∨ b.status = BookingStatus.checkedOut) →
    b.room_id.isSome = true) ∧
  (b.status = BookingStatus.pending → b.room_id = none)

/-- Helper: `bookingInv` is preserved by every lifecycle request. -/
theorem bookingInv_preserved (inp : CreateInput) (w : World) (op : Op)
    (h : bookingInv inp w.booking) : bookingInv inp (applyOp w op).booking := by
  obtain ⟨hci, hco, hroom, hpend⟩ := h
  cases op with
  | confirmOp =>
    simp only [applyOp, confirm_booking]
    exact ⟨hci, hco, by simp, by simp⟩
  | cancelOp reason now today =>
    simp only [applyOp, cancel_booking]
    split
    · rename_i heq
      split at heq
      · exact absurd heq (by simp)
      · cases heq
        exact ⟨hci, hco, by simp, by simp⟩
    · exact ⟨hci, hco, hroom, hpend⟩
  | checkInOp requested now =>
    simp only [applyOp]
    split
    · rename_i b2 rooms2 heq
      simp only [check_in] at heq
      split at heq
      · cases heq
      · split at heq
        · cases heq
        · split at heq
          · cases heq
            exact ⟨hci, hco, by simp, by simp⟩
          · cases heq
    · exact ⟨hci, hco, hroom, hpend⟩
  | checkOutOp now =>
    simp only [applyOp]
    split
    · rename_i b2 rooms2 tasks2 heq
      simp only [check_out] at heq
      split at heq
      · cases heq
      · rename_i hstatus
        rw [Decidable.not_not] at hstatus
        have hsome : w.booking.room_id.isSome = true := hroom (Or.inl hstatus)
        split at heq
        · rename_i hnone
          rw [hnone] at hsome
          cases hsome
        · cases heq
          exact ⟨hci, hco, by simpa using hsome, by simp⟩
    · exact ⟨hci, hco, hroom, hpend⟩

/-- Helper: `bookingInv` holds along any request sequence. -/
theorem bookingInv_runOps (inp : CreateInput) (ops : List Op) (w : World)
    (h : bookingInv inp w.booking) : bookingInv inp (runOps w ops).booking := by
  induction ops generalizing w with
  | nil => exact h
  | cons op rest ih => exact ih (applyOp w op) (bookingInv_preserved inp w op h)

/-- An empty-range creation request (check-in equals check-out). -/
def exBadCreateInput2 : CreateInput :=
  { hotel_id := 1, guest_id := 1, room_type_id := 1, check_in_date := 10,
    check_out_date := 10, num_guests := 2, total_amount := 100 }

/-- C9 counterexample: the booking produced by creation itself (the empty
request sequence) is reachable yet violates the claimed invariant
`check_out_date > check_in_date`, because creation never validates the
dates. -/
theorem booking_invariant_counterexample :
    ¬ (reachableWorld exBadCreateInput2 [] []).booking.check_in_date <
      (reachableWorld exBadCreateInput2 [] []).booking.check_out_date := by
  decide

/-- C9 amended: along every request sequence from creation, the booking's
dates never change — so `check_out_date > check_in_date` holds for every
reachable booking exactly when the creation input already satisfied it
(creation itself does not enforce it); a CHECKED_IN or CHECKED_OUT booking
always has a room assigned, and a PENDING booking never has one.  The
claimed "room_id set only if checked in (or checked in before cancellation)"
direction fails in full: confirming a CHECKED_IN booking yields a CONFIRMED
booking that keeps its room. -/
theorem booking_invariant_amended (inp : CreateInput) (rooms0 : List Room)
    (ops : List Op) :
    (reachableWorld inp rooms0 ops).booking.check_in_date = inp.check_in_date ∧
    (reachableWorld inp rooms0 ops).booking.check_out_date = inp.check_out_date ∧
    (inp.check_in_date < inp.check_out_date →
      (reachableWorld inp rooms0 ops).booking.check_in_date <
        (reachableWorld inp rooms0 ops).booking.check_out_date) ∧
    (((reachableWorld inp rooms0 ops).booking.status = BookingStatus.checkedIn ∨
      (reachableWorld inp rooms0 ops).booking.status = BookingStatus.checkedOut) →
      (reachableWorld inp rooms0 ops).booking.room_id.isSome = true) ∧
    ((reachableWorld inp rooms0 ops).booking.status = BookingStatus.pending →
      (reachableWorld inp rooms0 ops).booking.room_id = none) := by
  have h : bookingInv inp (reachableWorld inp rooms0 ops).booking :=
    bookingInv_runOps inp ops _ ⟨rfl, rfl, by simp [create_booking], fun _ => rfl⟩
  obtain ⟨hci, hco, hroom, hpend⟩ := h
  exact ⟨hci, hco, fun hlt => by rw [hci, hco]; exact hlt, hroom, hpend⟩

/-- Witness for C9's amended theorem: a well-formed creation followed by
confirm, check-in (auto-assigning the stored room) and check-out. -/
theorem booking_invariant_amended_witness :
    (1 : Int) < 3 ∧
    (reachableWorld
        { hotel_id := 1, guest_id := 1, room_type_id := 1, check_in_date := 1,
          check_out_date := 3, num_guests := 2, total_amount := 80 }
        [exRoomLow]
        [Op.confirmOp, Op.checkInOp none 1, Op.checkOutOp 3]).booking.check_in_date <
      (reachableWorld
        { hotel_id := 1, guest_id := 1, room_type_id := 1, check_in_date := 1,
          check_out_date := 3, num_guests := 2, total_amount := 80 }
        [exRoomLow]
        [Op.confirmOp, Op.checkInOp none 1, Op.checkOutOp 3]).booking.check_out_date ∧
    ((reachableWorld
        { hotel_id := 1, guest_id := 1, room_type_id := 1, check_in_date := 1,
          check_out_date := 3, num_guests := 2, total_amount := 80 }
        [exRoomLow]
        [Op.confirmOp, Op.checkInOp none 1, Op.checkOutOp 3]).booking.status =
          BookingStatus.checkedOut →
      (reachableWorld
        { hotel_id := 1, guest_id := 1, room_type_id := 1, check_in_date := 1,
          check_out_date := 3, num_guests := 2, total_amount := 80 }
        [exRoomLow]
        [Op.confirmOp, Op.checkInOp none 1, Op.checkOutOp 3]).booking.room_id.isSome = true) :=
  ⟨by decide,
   (booking_invariant_amended
     { hotel_id := 1, guest_id := 1, room_type_id := 1, check_in_date := 1,
       check_out_date := 3, num_guests := 2, total_amount := 80 }
     [exRoomLow]
     [Op.confirmOp, Op.checkInOp none 1, Op.checkOutOp 3]).2.2.1 (by decide),
   fun h =>
   (booking_invariant_amended
     { hotel_id := 1, guest_id := 1, room_type_id := 1, check_in_date := 1,
       check_out_date := 3, num_guests := 2, total_amount := 80 }
     [exRoomLow]
     [Op.confirmOp, Op.checkInOp none 1, Op.checkOutOp 3]).2.2.2.1 (Or.inr h)⟩

/-- Helper: on well-formed intervals the three-disjunct test agrees with the
single-predicate overlap test. -/
theorem overlap3_eq_overlapStd (bci bco ci co : Int) (hb : bci < bco)
    (hq : ci < co) : overlap3 bci bco ci co = overlapStd bci bco ci co := by
  apply bool_eq_of_iff
  simp only [overlap3, overlapStd, Bool.or_eq_true, Bool.and_eq_true,
    decide_eq_true_eq]
  omega

/-- Helper: when every stored booking is well-formed and the query range is
non-empty, the code's booked-rooms count equals the count of genuinely
overlapping active bookings. -/
theorem booked_rooms_eq_overlapping (bookings : List Booking) (hid rtid : Nat)
    (ci co : Int) (hq : ci < co)
    (hvalid : ∀ b ∈ bookings, b.check_in_date < b.check_out_date) :
    booked_rooms bookings hid rtid ci co =
      booked_rooms_overlapping bookings hid rtid ci co := by
  unfold booked_rooms booked_rooms_overlapping
  congr 1
  apply List.filter_congr
  intro b hb
  unfold bookingCounted
  rw [overlap3_eq_overlapStd b.check_in_date b.check_out_date ci co
    (hvalid b hb) hq]

/-- C1: for a valid search (non-empty range, check-in not in the past) over
a store whose bookings all have well-formed date ranges, every reported
entry counts `eligible rooms − genuinely overlapping active bookings` for
its room type and is strictly positive (never negative or zero), and every
room type of the hotel that is not soft-deleted, admits the guest count and
has positive such availability is reported with exactly that count. -/
theorem availability_search_correct (st : Store) (hid : Nat) (ci co : Int)
    (guests : Nat) (today : Int)
    (hvalid : ∀ b ∈ st.bookings, b.check_in_date < b.check_out_date)
    (hrange : ci < co) (hnotpast : today ≤ ci) :
    ∃ entries, search_availability st hid ci co guests today = Except.ok entries ∧
      (∀ e ∈ entries, 0 < e.available_rooms ∧
        e.available_rooms = (total_rooms st.rooms hid e.room_type_id : Int) -
          (booked_rooms_overlapping st.bookings hid e.room_type_id ci co : Int)) ∧
      (∀ rt ∈ st.room_types, rt.hotel_id = hid → rt.is_deleted = false →
        guests ≤ rt.max_occupancy →
        0 < (total_rooms st.rooms hid rt.id : Int) -
            (booked_rooms_overlapping st.bookings hid rt.id ci co : Int) →
        ∃ e ∈ entries, e.room_type_id = rt.id ∧
          e.available_rooms = (total_rooms st.rooms hid rt.id : Int) -
            (booked_rooms_overlapping st.bookings hid rt.id ci co : Int)) := by
  unfold search_availability
  rw [if_neg (by omega), if_neg (by omega)]
  refine ⟨_, rfl, ?_, ?_⟩
  · intro e he
    obtain ⟨rt, hrtmem, hf⟩ := List.mem_filterMap.mp he
    by_cases hpos : 0 < (total_rooms st.rooms hid rt.id : Int) -
        (booked_rooms st.bookings hid rt.id ci co : Int)
    · rw [if_pos hpos] at hf
      cases hf
      refine ⟨hpos, ?_⟩
      simp only []
      rw [booked_rooms_eq_overlapping st.bookings hid rt.id ci co hrange hvalid]
    · rw [if_neg hpos] at hf
      cases hf
  · intro rt hrtmem h1 h2 h3 hpos
    have hpos3 : 0 < (total_rooms st.rooms hid rt.id : Int) -
        (booked_rooms st.bookings hid rt.id ci co : Int) := by
      rw [booked_rooms_eq_overlapping st.bookings hid rt.id ci co hrange hvalid]
      exact hpos
    refine ⟨{ room_type_id := rt.id,
              available_rooms := (total_rooms st.rooms hid rt.id : Int) -
                (booked_rooms st.bookings hid rt.id ci co : Int),
              num_nights := co - ci, price_per_night := rt.base_price,
              total_price := rt.base_price * (co - ci : Int) }, ?_, rfl, ?_⟩
    · apply List.mem_filterMap.mpr
      refine ⟨rt, ?_, ?_⟩
      · exact List.mem_filter.mpr ⟨hrtmem, by simp [h1, h2, h3]⟩
      · rw [if_pos hpos3]
    · simp only []
      rw [booked_rooms_eq_overlapping st.bookings hid rt.id ci co hrange hvalid]

/-- A one-type, two-room, one-active-booking store for the witness. -/
def exStore : Store :=
  { room_types := [{ id := 1, hotel_id := 1, max_occupancy := 2,
                     base_price := 50, is_deleted := false }],
    rooms := [{ id := 1, hotel_id := 1, room_type_id := 1, room_number := 101,
                status := RoomStatus.cleanReady, is_deleted := false },
              { id := 2, hotel_id := 1, room_type_id := 1, room_number := 102,
                status := RoomStatus.vacantDirty, is_deleted := false }],
    bookings := [{ id := 1, hotel_id := 1, room_type_id := 1, room_id := none,
                   check_in_date := 5, check_out_date := 8, num_guests := 2,
                   total_amount := 150, status := BookingStatus.confirmed,
                   cancellation_reason := none, cancelled_at := none,
                   refund_amount := none, actual_check_in := none,
                   actual_check_out := none, is_deleted := false }] }

/-- Witness for C1 on the concrete store: range `[5, 8)`, 2 guests, today 0. -/
theorem availability_search_correct_witness :
    ∃ entries, search_availability exStore 1 5 8 2 0 = Except.ok entries ∧
      (∀ e ∈ entries, 0 < e.available_rooms ∧
        e.available_rooms = (total_rooms exStore.rooms 1 e.room_type_id : Int) -
          (booked_rooms_overlapping exStore.bookings 1 e.room_type_id 5 8 : Int)) ∧
      (∀ rt ∈ exStore.room_types, rt.hotel_id = 1 → rt.is_deleted = false →
        2 ≤ rt.max_occupancy →
        0 < (total_rooms exStore.rooms 1 rt.id : Int) -
            (booked_rooms_overlapping exStore.bookings 1 rt.id 5 8 : Int) →
        ∃ e ∈ entries, e.room_type_id = rt.id ∧
          e.available_rooms = (total_rooms exStore.rooms 1 rt.id : Int) -
            (booked_rooms_overlapping exStore.bookings 1 rt.id 5 8 : Int)) :=
  availability_search_correct exStore 1 5 8 2 0 (by decide) (by decide) (by decide)

/-- Witness for C4's amended theorem at a concrete PENDING booking. -/
theorem confirm_booking_amended_witness :
    confirm_booking (some exPendingBooking) =
      Except.ok { exPendingBooking with status := BookingStatus.confirmed } :=
  confirm_booking_amended.1 exPendingBooking

/-- Witness for C6's amended theorem at the invalid-range input. -/
theorem create_booking_amended_witness :
    (create_booking exBadCreateInput).status = BookingStatus.pending ∧
    (create_booking exBadCreateInput).check_in_date = exBadCreateInput.check_in_date ∧
    (create_booking exBadCreateInput).check_out_date = exBadCreateInput.check_out_date ∧
    (create_booking exBadCreateInput).num_guests = exBadCreateInput.num_guests ∧
    (create_booking exBadCreateInput).room_id = none ∧
    (create_booking exBadCreateInput).total_amount = exBadCreateInput.total_amount :=
  create_booking_amended exBadCreateInput

/-- Witness for C10 at a concrete booking: the soft-deleted copy is hidden
from `get_booking` yet confirmed by `confirm_booking` exactly as the live
copy is. -/
theorem soft_delete_ignored_witness :
    get_booking (some { exPendingBooking with is_deleted := true }) =
      Except.error "Booking not found" ∧
    confirm_booking (some { exPendingBooking with is_deleted := true }) =
      Except.map (fun x => { x with is_deleted := true })
        (confirm_booking (some { exPendingBooking with is_deleted := false })) :=
  ⟨(soft_delete_ignored_by_transitions exPendingBooking none none [] [] 0 0).1,
   (soft_delete_ignored_by_transitions exPendingBooking none none [] [] 0 0).2.1⟩

end HotelBooking
